import Mathlib

/-!
Shallow embedding of the pip dependency helper (files `check.py` and `main.py`)
and proofs about it.

Modelling conventions:
* Python strings are Lean `String`s; per-character operations work on `String.data`.
* External effects are inputs: the outcome of a subprocess call (`pip check`,
  a fix command), the string typed at an `input()` prompt, and the success of a
  module import are supplied by explicit environment arguments.  Observable
  effects (running a fix command, issuing a prompt, attempting an install) are
  returned as explicit traces.
* The third-party `packaging.version.parse` comparison is abstracted as an
  oracle `vcmp a b : Option Ordering`; `none` models `InvalidVersion` being
  raised by either parse (caught by the `except` clauses of the source).
* Python methods take `self` and return the (possibly updated) `self`,
  modelling attribute mutation; the source never assigns to `self` outside
  `__init__`, which the embedding reflects.
-/

/-- The whitespace characters stripped by Python `str.strip()` (ASCII part;
the inputs handled here are ASCII tool output). -/
def pyIsSpace (c : Char) : Bool :=
  c == ' ' || c == '\t' || c == '\n' || c == '\r' || c == '\x0b' || c == '\x0c'

/-- Python `s.strip()`. -/
def pyStrip (s : String) : String :=
  ⟨((s.data.dropWhile pyIsSpace).reverse.dropWhile pyIsSpace).reverse⟩

/-- Python `s.lower()`, per character.  For the ASCII letters this agrees with
Python; no non-ASCII scalar has `'o'` as its lowercase mapping, so comparisons
against `"o"` below agree with Python on every input. -/
def pyLower (s : String) : String :=
  ⟨s.data.map Char.toLower⟩

/-- Python `s.upper()`, per character (see `pyLower`). -/
def pyUpper (s : String) : String :=
  ⟨s.data.map Char.toUpper⟩

/-- Python `sub in s` (substring containment). -/
def pyContains (s sub : String) : Bool :=
  s.data.tails.any (fun t => sub.data.isPrefixOf t)

/-- Python `s.split(sep)[0]` for nonempty `sep`: the text before the first
occurrence of `sep` (the whole string when `sep` does not occur). -/
def pySplitHead (s sep : String) : String :=
  match (List.range s.data.length).find? (fun i => sep.data.isPrefixOf (s.data.drop i)) with
  | some i => ⟨s.data.take i⟩
  | none => s

/-- Python `s.split(sep)[1]` for nonempty `sep`, meaningful when `sep` occurs:
the text between the first and second occurrences. -/
def pySplitSecond (s sep : String) : String :=
  (s.splitOn sep).getD 1 ""

/-- Python `s.split('\n')[0]`: the prefix before the first newline. -/
def pyFirstLine (s : String) : String :=
  ⟨s.data.takeWhile (fun c => c != '\n')⟩

/-- Python truthy `or` on an optional string: `a or b` is `b` when `a` is
`None` or empty, else the contents of `a`. -/
def pyOrStr (a : Option String) (b : String) : String :=
  match a with
  | some s => if s == "" then b else s
  | none => b

/-- Python dict assignment `d[key] = val` on an insertion-ordered dict
represented as an association list: replace the first binding of `key`,
else append a new binding at the end. -/
def dictInsert {α β : Type} [BEq α] (d : List (α × β)) (key : α) (val : β) :
    List (α × β) :=
  match d with
  | [] => [(key, val)]
  | (k, v) :: rest =>
    if k == key then (key, val) :: rest else (k, v) :: dictInsert rest key val

namespace Check

/-! ## Embedding of `check.py` -/

/-- Character class `[a-zA-Z0-9_\-]` of the pip-check requirement regex. -/
def isWordChar (c : Char) : Bool :=
  (('a' ≤ c && c ≤ 'z') || ('A' ≤ c && c ≤ 'Z')) || c.isDigit || c == '_' || c == '-'

/-- Character class `[0-9\.]`. -/
def isVerChar (c : Char) : Bool :=
  c.isDigit || c == '.'

/-- Character class `[>=<~!]`. -/
def isSpecChar (c : Char) : Bool :=
  c == '>' || c == '=' || c == '<' || c == '~' || c == '!'

/-- Class of `.` of the regex in default mode: any character but a newline. -/
def isDotChar (c : Char) : Bool :=
  c != '\n'

/-- Tokens of a concatenation-only regular expression:
a literal, a captured greedy `(class)+`, and a captured greedy `(class.+)`
(one character of the first class followed by one or more of the second). -/
inductive RTok : Type
| lit : List Char → RTok
| plus : (Char → Bool) → RTok
| spec : (Char → Bool) → (Char → Bool) → RTok

/-- Backtracking matcher for a token sequence against a prefix of `input`,
returning the captured groups in order.  Greedy repetition is modelled by
trying the longest repetition first and backtracking to shorter ones, which is
exactly Python `re`'s strategy for a concatenation of greedy pieces. -/
def matchToks : List RTok → List Char → Option (List (List Char))
  | [], _ => some []
  | RTok.lit ls :: ts, input =>
    if ls.isPrefixOf input then matchToks ts (input.drop ls.length) else none
  | RTok.plus p :: ts, input =>
    let run := input.takeWhile p
    ((List.range run.length).reverse.map (fun k => k + 1)).findSome? (fun len =>
      (matchToks ts (input.drop len)).map (fun caps => input.take len :: caps))
  | RTok.spec p q :: ts, input =>
    match input with
    | [] => none
    | c :: rest =>
      if p c then
        let run := rest.takeWhile q
        ((List.range run.length).reverse.map (fun k => k + 1)).findSome? (fun len =>
          (matchToks ts (rest.drop len)).map (fun caps => (c :: rest.take len) :: caps))
      else none

/-- The pattern of `parse_pip_check_output`:
`([a-zA-Z0-9_\-]+) ([0-9\.]+) has requirement ([a-zA-Z0-9_\-]+)([>=<~!].+), but you have ([a-zA-Z0-9_\-]+) ([0-9\.]+)`. -/
def pipCheckPattern : List RTok :=
  [RTok.plus isWordChar,
   RTok.lit [' '],
   RTok.plus isVerChar,
   RTok.lit " has requirement ".data,
   RTok.plus isWordChar,
   RTok.spec isSpecChar isDotChar,
   RTok.lit ", but you have ".data,
   RTok.plus isWordChar,
   RTok.lit [' '],
   RTok.plus isVerChar]

/-- Model of `re.search(pattern, line)` for the pip-check pattern: try each start
position left to right and return the six captured groups of the first
(leftmost) match. -/
def reqSearch (line : String) :
    Option (String × String × String × String × String × String) :=
  match (List.range (line.data.length + 1)).findSome?
      (fun i => matchToks pipCheckPattern (line.data.drop i)) with
  | some [g1, g2, g3, g4, g5, g6] => some (⟨g1⟩, ⟨g2⟩, ⟨g3⟩, ⟨g4⟩, ⟨g5⟩, ⟨g6⟩)
  | _ => none

/-- One entry of the list built by `parse_pip_check_output` (a Python dict
with a `'type'` key of `'dependency_conflict'` or `'generic'`). -/
inductive PipError : Type
| dependency_conflict (package package_version dependency requirement
    current_dependency current_version raw_message : String)
| generic (raw_message : String)
deriving DecidableEq

/-- The resolver object: fields assigned by `__init__`
(the `logger.setLevel` call there is a pure logging side effect). -/
structure PipDependencyResolver : Type where
  auto_fix : Bool
  verbose : Bool
deriving DecidableEq

/-- Constructor call `PipDependencyResolver(auto_fix, verbose)`. -/
def PipDependencyResolver.init (auto_fix verbose : Bool) : PipDependencyResolver :=
  ⟨auto_fix, verbose⟩

/-- External world supplied to `resolve_dependencies`: the outcome of the
initial `pip check`, the outcome of each correction command (as returned by
`fix_error`, i.e. already reduced to success flag and combined output), and
the outcome of the final re-check. -/
structure Env : Type where
  check1 : Bool × String
  fixResult : String → Bool × String
  check2 : Bool × String

/-- Observable external actions of `resolve_dependencies`. -/
inductive Event : Type
| runPipCheck
| fixError (cmd : String)
deriving DecidableEq

/-- Method `run_pip_check`: runs `pip check`; the subprocess outcome — already
collapsed to `(returncode == 0, stdout or stderr)`, with the exception branch
collapsed to `(False, message)` — is supplied as `result`. -/
def run_pip_check (self : PipDependencyResolver) (result : Bool × String) :
    (Bool × String) × PipDependencyResolver :=
  (result, self)

/-- Loop body of `parse_pip_check_output`: skip blank lines, classify the
rest by the requirement regex. -/
def parseStep (errors : List PipError) (line : String) : List PipError :=
  if (pyStrip line).isEmpty then errors
  else
    match reqSearch line with
    | some (package, package_version, dependency, requirement,
        current_dependency, current_version) =>
      errors ++ [PipError.dependency_conflict package package_version dependency
        requirement current_dependency current_version line]
    | none => errors ++ [PipError.generic line]

/-- Method `parse_pip_check_output`. -/
def parse_pip_check_output (self : PipDependencyResolver) (output : String) :
    List PipError × PipDependencyResolver :=
  ((output.splitOn "\n").foldl parseStep [], self)

/-- Method `suggest_fix`. -/
def suggest_fix (self : PipDependencyResolver) (error : PipError) :
    Option String × PipDependencyResolver :=
  match error with
  | PipError.dependency_conflict package _ dependency requirement _ _ _ =>
    let fix_cmd := "pip install --upgrade " ++ dependency ++ requirement
    let alternative_cmd := "pip install --upgrade " ++ package
    (some (fix_cmd ++ "\n# Si cela ne fonctionne pas, essayez:\n# " ++ alternative_cmd),
      self)
  | PipError.generic _ => (none, self)

/-- Method `fix_error`: runs the correction command; its outcome — already collapsed
to `(returncode == 0, stdout or stderr)`, exception branch to
`(False, message)` — is supplied by the environment. -/
def fix_error (self : PipDependencyResolver) (env : Env) (command : String) :
    (Bool × String) × PipDependencyResolver :=
  (env.fixResult command, self)

/-- Loop body of `resolve_dependencies` over one parsed error, threading the
`all_fixed` flag, the event trace and `self`. -/
def resolveStep (env : Env)
    (acc : Bool × List Event × PipDependencyResolver) (error : PipError) :
    Bool × List Event × PipDependencyResolver :=
  let (all_fixed, events, self) := acc
  let (fixCmd, self) := suggest_fix self error
  match fixCmd with
  | none => (false, events, self)
  | some fix_cmd =>
    if self.auto_fix then
      let cmd_to_execute := pyFirstLine fix_cmd
      let ((fix_success, _fix_output), self) := fix_error self env cmd_to_execute
      (if fix_success then all_fixed else false,
        events ++ [Event.fixError cmd_to_execute], self)
    else
      (false, events, self)

/-- Method `resolve_dependencies`. -/
def resolve_dependencies (self : PipDependencyResolver) (env : Env) :
    (Bool × List Event) × PipDependencyResolver :=
  let ((success, output), self) := run_pip_check self env.check1
  let events := [Event.runPipCheck]
  if success then ((true, events), self)
  else
    let (errors, self) := parse_pip_check_output self output
    if errors.isEmpty then ((false, events), self)
    else
      let (all_fixed, events, self) := errors.foldl (resolveStep env) (true, events, self)
      if all_fixed && self.auto_fix then
        let ((final_success, _final_output), self) := run_pip_check self env.check2
        ((final_success, events ++ [Event.runPipCheck]), self)
      else
        ((all_fixed, events), self)

/-- The entry `parse_pip_check_output` produces for one non-blank line. -/
def parsedEntry (line : String) : PipError :=
  match reqSearch line with
  | some (package, package_version, dependency, requirement,
      current_dependency, current_version) =>
    PipError.dependency_conflict package package_version dependency
      requirement current_dependency current_version line
  | none => PipError.generic line

end Check

namespace Main

/-! ## Embedding of `main.py`

`packaging.version.parse` with comparison is abstracted as an oracle
`vcmp a b : Option Ordering` (the ordering of the two parsed versions;
`none` when either parse raises `InvalidVersion`). -/

/-- One value of `parse_required_packages`'s result dict:
`{'version_req': ..., 'exact_version': ...}`. -/
structure ReqInfo : Type where
  version_req : String
  exact_version : Option String
deriving DecidableEq

/-- One value of the dict returned by `get_dependent_packages`:
`{'version': ..., 'requirement': ...}`. -/
structure DependentInfo : Type where
  version : String
  requirement : String
deriving DecidableEq

/-- One value of the conflicts dict built by `check_version_conflicts`.
`is_downgrade` and `version_req` are `none` when the corresponding key is
absent (dict `.get` then yields `None`, which is what `confirm_update`
observes). -/
structure ConflictInfo : Type where
  installed : String
  required : String
  is_downgrade : Option Bool := none
  version_req : Option String := none
  dependents : List (String × DependentInfo)
deriving DecidableEq

/-- Function `extract_compatible_version` (its `try` body cannot raise: each indexing
is guarded by the corresponding containment test). -/
def extract_compatible_version (version_req : String) : Option String :=
  if pyContains version_req "==" then some (pySplitSecond version_req "==")
  else if pyContains version_req ">=" then some (pySplitSecond version_req ">=")
  else if pyContains version_req "<=" then some (pySplitSecond version_req "<=")
  else none

/-- Function `meets_version_requirement`.  The `'=='` branch compares strings; the
`'>='`/`'<='` branches compare parsed versions, and a parse failure
(`vcmp … = none`) lands in the `except` clause returning `False`. -/
def meets_version_requirement (vcmp : String → String → Option Ordering)
    (installed_ver version_req : String) : Bool :=
  if pyContains version_req "==" then
    installed_ver == pySplitSecond version_req "=="
  else if pyContains version_req ">=" then
    match vcmp installed_ver (pySplitSecond version_req ">=") with
    | some o => o != Ordering.lt
    | none => false
  else if pyContains version_req "<=" then
    match vcmp installed_ver (pySplitSecond version_req "<=") with
    | some o => o != Ordering.gt
    | none => false
  else
    true

/-- Loop body of `check_version_conflicts` for one `(pkg, req_info)` item of
the requirements dict.  `get_dependents` abstracts
`safe_get_dependent_packages` (whose `except` branch returns `{}`, so it is a
total function of the package name). -/
def conflictStep (vcmp : String → String → Option Ordering)
    (get_dependents : String → List (String × DependentInfo))
    (installed : List (String × String))
    (conflicts : List (String × ConflictInfo)) (item : String × ReqInfo) :
    List (String × ConflictInfo) :=
  let pkg := item.1
  let req_info := item.2
  match List.lookup pkg installed with
  | none => conflicts
  | some installed_ver =>
    let version_req := req_info.version_req
    let elif_branch :=
      if version_req != "" &&
          !(meets_version_requirement vcmp installed_ver version_req) then
        let compatible_version := extract_compatible_version version_req
        dictInsert conflicts pkg
          { installed := installed_ver
            required := pyOrStr compatible_version "?"
            version_req := some version_req
            dependents := get_dependents pkg }
      else conflicts
    match req_info.exact_version with
    | some exact_version =>
      if exact_version != "" && installed_ver != exact_version then
        dictInsert conflicts pkg
          { installed := installed_ver
            required := exact_version
            is_downgrade := (vcmp installed_ver exact_version).map
              (fun o => o == Ordering.gt)
            dependents := get_dependents pkg }
      else elif_branch
    | none => elif_branch

/-- Function `check_version_conflicts`, over the requirements dict (association list in
insertion order) and the installed-packages dict. -/
def check_version_conflicts (vcmp : String → String → Option Ordering)
    (get_dependents : String → List (String × DependentInfo))
    (requirements : List (String × ReqInfo))
    (installed : List (String × String)) : List (String × ConflictInfo) :=
  requirements.foldl (conflictStep vcmp get_dependents installed) []

/-- Function `confirm_update`.  `response` is the string `input()` would return; the
second component counts the prompts issued (the two `input` call sites differ
only in the prompt text). -/
def confirm_update (pkg : String) (info : ConflictInfo) (auto_yes : Bool)
    (response : String) : Bool × Nat :=
  if auto_yes then
    (true, 0)
  else
    let dependents := info.dependents.length
    let r :=
      if dependents > 0 then response
      else response
    ((pyLower r == "o" || pyUpper r == "O"), 1)

/-- Table `PACKAGE_TO_MODULE_MAP`.  The source dict literal repeats the keys
`wheel`, `invoke`, `fabric`, `celery` and `kombu` with identical values, so
first-binding lookup on this list agrees with the Python dict. -/
def PACKAGE_TO_MODULE_MAP : List (String × String) :=
  [("scikit-learn", "sklearn"),
   ("python-dateutil", "dateutil"),
   ("PyYAML", "yaml"),
   ("opencv-python", "cv2"),
   ("Pillow", "PIL"),
   ("email-validator", "email_validator"),
   ("beautifulsoup4", "bs4"),
   ("tensorflow", "tensorflow"),
   ("Flask", "flask"),
   ("Jinja2", "jinja2"),
   ("Werkzeug", "werkzeug"),
   ("itsdangerous", "itsdangerous"),
   ("MarkupSafe", "markupsafe"),
   ("SQLAlchemy", "sqlalchemy"),
   ("alembic", "alembic"),
   ("celery", "celery"),
   ("boto3", "boto3"),
   ("botocore", "botocore"),
   ("s3transfer", "s3transfer"),
   ("requests", "requests"),
   ("urllib3", "urllib3"),
   ("idna", "idna"),
   ("certifi", "certifi"),
   ("chardet", "chardet"),
   ("setuptools", "setuptools"),
   ("wheel", "wheel"),
   ("pip", "pip"),
   ("pytest", "pytest"),
   ("tox", "tox"),
   ("virtualenv", "virtualenv"),
   ("numpy", "numpy"),
   ("pandas", "pandas"),
   ("matplotlib", "matplotlib"),
   ("seaborn", "seaborn"),
   ("scipy", "scipy"),
   ("sympy", "sympy"),
   ("networkx", "networkx"),
   ("nltk", "nltk"),
   ("spacy", "spacy"),
   ("gensim", "gensim"),
   ("torch", "torch"),
   ("torchvision", "torchvision"),
   ("torchaudio", "torchaudio"),
   ("keras", "keras"),
   ("theano", "theano"),
   ("statsmodels", "statsmodels"),
   ("skimage", "skimage"),
   ("Pygments", "pygments"),
   ("docutils", "docutils"),
   ("sphinx", "sphinx"),
   ("twisted", "twisted"),
   ("django", "django"),
   ("djangorestframework", "rest_framework"),
   ("flask-restful", "flask_restful"),
   ("flask-login", "flask_login"),
   ("flask-wtf", "flask_wtf"),
   ("wtforms", "wtforms"),
   ("sqlalchemy-utils", "sqlalchemy_utils"),
   ("psycopg2", "psycopg2"),
   ("mysql-connector-python", "mysql.connector"),
   ("pymysql", "pymysql"),
   ("redis", "redis"),
   ("pika", "pika"),
   ("kombu", "kombu"),
   ("gevent", "gevent"),
   ("greenlet", "greenlet"),
   ("eventlet", "eventlet"),
   ("gunicorn", "gunicorn"),
   ("uvicorn", "uvicorn"),
   ("hypercorn", "hypercorn"),
   ("fastapi", "fastapi"),
   ("starlette", "starlette"),
   ("aiohttp", "aiohttp"),
   ("asyncio", "asyncio"),
   ("trio", "trio"),
   ("httpx", "httpx"),
   ("websockets", "websockets"),
   ("paramiko", "paramiko"),
   ("fabric", "fabric"),
   ("invoke", "invoke"),
   ("click", "click"),
   ("typer", "typer"),
   ("prompt_toolkit", "prompt_toolkit"),
   ("rich", "rich"),
   ("colorama", "colorama"),
   ("tabulate", "tabulate"),
   ("pygments", "pygments"),
   ("loguru", "loguru"),
   ("structlog", "structlog"),
   ("python-json-logger", "pythonjsonlogger"),
   ("pyyaml", "yaml"),
   ("jsonschema", "jsonschema"),
   ("marshmallow", "marshmallow"),
   ("pydantic", "pydantic"),
   ("cerberus", "cerberus"),
   ("voluptuous", "voluptuous"),
   ("schematics", "schematics"),
   ("attrs", "attr"),
   ("dataclasses", "dataclasses"),
   ("boltons", "boltons"),
   ("more-itertools", "more_itertools"),
   ("toolz", "toolz"),
   ("cytoolz", "cytoolz"),
   ("fn", "fn"),
   ("funcy", "funcy"),
   ("multipledispatch", "multipledispatch"),
   ("singledispatch", "singledispatch"),
   ("cachetools", "cachetools"),
   ("lru-dict", "lru"),
   ("diskcache", "diskcache"),
   ("pylru", "pylru"),
   ("joblib", "joblib"),
   ("dill", "dill"),
   ("cloudpickle", "cloudpickle"),
   ("pickle5", "pickle5"),
   ("zipp", "zipp"),
   ("importlib-metadata", "importlib_metadata"),
   ("importlib-resources", "importlib_resources"),
   ("pkg_resources", "pkg_resources"),
   ("setuptools_scm", "setuptools_scm"),
   ("build", "build"),
   ("twine", "twine"),
   ("pip-tools", "piptools"),
   ("poetry", "poetry"),
   ("flit", "flit"),
   ("hatch", "hatch"),
   ("conda", "conda"),
   ("mamba", "mamba"),
   ("nox", "nox"),
   ("ansible", "ansible"),
   ("salt", "salt"),
   ("chef", "chef"),
   ("puppet", "puppet"),
   ("vagrant", "vagrant"),
   ("docker", "docker"),
   ("docker-compose", "dockercompose"),
   ("kubernetes", "kubernetes"),
   ("helm", "helm"),
   ("terraform", "terraform"),
   ("packer", "packer"),
   ("vault", "vault"),
   ("consul", "consul"),
   ("nomad", "nomad"),
   ("etcd", "etcd"),
   ("zookeeper", "zookeeper"),
   ("rq", "rq"),
   ("huey", "huey"),
   ("dramatiq", "dramatiq"),
   ("pyzmq", "zmq"),
   ("zerorpc", "zerorpc"),
   ("grpcio", "grpc"),
   ("thrift", "thrift"),
   ("protobuf", "google.protobuf"),
   ("avro", "avro"),
   ("fastavro", "fast"),
   ("jax", "jax")]

/-- The distribution name computed by `is_present` for one argument:
`package.split('==')[0].split('>=')[0].split('<=')[0]`. -/
def package_name_of (package : String) : String :=
  pySplitHead (pySplitHead (pySplitHead package "==") ">=") "<="

/-- The module `is_present` tries to import for one argument:
`PACKAGE_TO_MODULE_MAP.get(package_name, package_name)`. -/
def module_name_of (package : String) : String :=
  (List.lookup (package_name_of package) PACKAGE_TO_MODULE_MAP).getD
    (package_name_of package)

/-- Function `is_present`.  `importOk m` tells whether `importlib.import_module(m)`
succeeds (`false` = `ImportError`).  The result is the trace of arguments
passed to `install_package_with_deps` (whose own behaviour is not needed for
the claims below), in order. -/
def is_present (argv : List String) (auto_yes : Bool)
    (importOk : String → Bool) : List String :=
  argv.foldl (fun installs package =>
    let package_name := package_name_of package
    let module_name := (List.lookup package_name PACKAGE_TO_MODULE_MAP).getD package_name
    if importOk module_name then installs
    else installs ++ [package]) []

/-- Follows the claim's words, for comparison with `package_name_of`: strip
the text from the first occurrence of any of `'=='`, `'>='`, `'<='` — i.e.
truncate at the smallest index where one of the three starts. -/
def specStripName (package : String) : String :=
  match (List.range package.data.length).find? (fun i =>
      ["==", ">=", "<="].any (fun sp => sp.data.isPrefixOf (package.data.drop i))) with
  | some i => ⟨package.data.take i⟩
  | none => package

/-- Variant of `is_present` as the claim describes it: identical except that the
distribution name is stripped at the first version specifier. -/
def is_present_specStrip (argv : List String) (auto_yes : Bool)
    (importOk : String → Bool) : List String :=
  argv.foldl (fun installs package =>
    let package_name := specStripName package
    let module_name := (List.lookup package_name PACKAGE_TO_MODULE_MAP).getD package_name
    if importOk module_name then installs
    else installs ++ [package]) []

end Main

/-! ## Helper lemmas -/

theorem char_toNat_inj {a b : Char} (h : a.toNat = b.toNat) : a = b :=
  Char.eq_of_val_eq (UInt32.eq_of_toBitVec_eq (BitVec.eq_of_toNat_eq h))

theorem char_toNat_ofNat (n : Nat) (h : n < 55296) : (Char.ofNat n).toNat = n := by
  have hv : n.isValidChar := Or.inl h
  rw [Char.ofNat, dif_pos hv]
  simp [Char.ofNatAux, Char.toNat, UInt32.toNat]

theorem toLower_eq_o (c : Char) : c.toLower = 'o' ↔ c = 'o' ∨ c = 'O' := by
  show (if c.toNat ≥ 65 ∧ c.toNat ≤ 90 then Char.ofNat (c.toNat + 32) else c) = 'o'
      ↔ c = 'o' ∨ c = 'O'
  by_cases h : c.toNat ≥ 65 ∧ c.toNat ≤ 90
  · rw [if_pos h]
    constructor
    · intro he
      have h111 : c.toNat + 32 = Char.toNat 'o' := by
        have hc := congrArg Char.toNat he
        rwa [char_toNat_ofNat _ (by omega)] at hc
      have ho : Char.toNat 'o' = 111 := by decide
      have hO : Char.toNat 'O' = 79 := by decide
      exact Or.inr (char_toNat_inj (by omega))
    · rintro (rfl | rfl)
      · exact absurd h (by decide)
      · decide
  · rw [if_neg h]
    constructor
    · exact fun he => Or.inl he
    · rintro (rfl | rfl)
      · rfl
      · exact absurd (by decide) h

theorem toUpper_eq_O (c : Char) : c.toUpper = 'O' ↔ c = 'o' ∨ c = 'O' := by
  show (if c.toNat ≥ 97 ∧ c.toNat ≤ 122 then Char.ofNat (c.toNat - 32) else c) = 'O'
      ↔ c = 'o' ∨ c = 'O'
  by_cases h : c.toNat ≥ 97 ∧ c.toNat ≤ 122
  · rw [if_pos h]
    constructor
    · intro he
      have h79 : c.toNat - 32 = Char.toNat 'O' := by
        have hc := congrArg Char.toNat he
        rwa [char_toNat_ofNat _ (by omega)] at hc
      have ho : Char.toNat 'o' = 111 := by decide
      have hO : Char.toNat 'O' = 79 := by decide
      exact Or.inl (char_toNat_inj (by omega))
    · rintro (rfl | rfl)
      · decide
      · exact absurd h (by decide)
  · rw [if_neg h]
    constructor
    · exact fun he => Or.inr he
    · rintro (rfl | rfl)
      · exact absurd (by decide) h
      · rfl

theorem pyLower_eq_o (s : String) : pyLower s = "o" ↔ s = "o" ∨ s = "O" := by
  constructor
  · intro h
    have hd : s.data.map Char.toLower = ['o'] := by
      have hdata := congrArg String.data h
      simpa [pyLower] using hdata
    obtain ⟨l⟩ := s
    cases l with
    | nil => simp at hd
    | cons c t =>
      cases t with
      | nil =>
        have hc : c.toLower = 'o' := by simpa using hd
        rcases (toLower_eq_o c).mp hc with rfl | rfl
        · exact Or.inl (String.ext (by decide))
        · exact Or.inr (String.ext (by decide))
      | cons c2 t2 => simp at hd
  · rintro (rfl | rfl) <;> decide

theorem pyUpper_eq_O (s : String) : pyUpper s = "O" ↔ s = "o" ∨ s = "O" := by
  constructor
  · intro h
    have hd : s.data.map Char.toUpper = ['O'] := by
      have hdata := congrArg String.data h
      simpa [pyUpper] using hdata
    obtain ⟨l⟩ := s
    cases l with
    | nil => simp at hd
    | cons c t =>
      cases t with
      | nil =>
        have hc : c.toUpper = 'O' := by simpa using hd
        rcases (toUpper_eq_O c).mp hc with rfl | rfl
        · exact Or.inl (String.ext (by decide))
        · exact Or.inr (String.ext (by decide))
      | cons c2 t2 => simp at hd
  · rintro (rfl | rfl) <;> decide

theorem takeWhile_append_of_all {α : Type} {p : α → Bool} (a b : List α)
    (h : a.all p = true) : (a ++ b).takeWhile p = a ++ b.takeWhile p := by
  induction a with
  | nil => simp
  | cons c t ih =>
    simp only [List.all_cons, Bool.and_eq_true] at h
    simp [List.takeWhile_cons, h.1, ih h.2]

theorem lookup_mem_keys {β : Type} (a : String) (l : List (String × β)) (b : β)
    (h : List.lookup a l = some b) : a ∈ l.map Prod.fst := by
  induction l with
  | nil => simp [List.lookup] at h
  | cons p t ih =>
    obtain ⟨k, v⟩ := p
    by_cases hk : a == k
    · simp [beq_iff_eq] at hk
      simp [hk]
    · have hk' : (a == k) = false := by simpa using hk
      rw [List.lookup] at h
      simp only [hk'] at h
      simp [ih h]

theorem dictInsert_keys {β : Type} (d : List (String × β)) (key : String) (val : β)
    (x : String) (h : x ∈ (dictInsert d key val).map Prod.fst) :
    x ∈ d.map Prod.fst ∨ x = key := by
  induction d with
  | nil =>
    right
    simpa [dictInsert] using h
  | cons p t ih =>
    obtain ⟨k, v⟩ := p
    by_cases hk : k == key
    · rw [dictInsert, if_pos hk] at h
      simp only [beq_iff_eq] at hk
      subst hk
      simp only [List.map_cons, List.mem_cons] at h ⊢
      rcases h with h | h
      · exact Or.inr h
      · exact Or.inl (Or.inr h)
    · rw [dictInsert, if_neg hk] at h
      simp only [List.map_cons, List.mem_cons] at h ⊢
      rcases h with h | h
      · exact Or.inl (Or.inl h)
      · rcases ih h with h' | h'
        · exact Or.inl (Or.inr h')
        · exact Or.inr h'

namespace Check

theorem suggest_fix_self (self : PipDependencyResolver) (error : PipError) :
    (suggest_fix self error).2 = self := by
  cases error <;> rfl

theorem resolveStep_self (env : Env) (acc : Bool × List Event × PipDependencyResolver)
    (error : PipError) : (resolveStep env acc error).2.2 = acc.2.2 := by
  cases error with
  | dependency_conflict p pv d r cd cv raw =>
    by_cases h : acc.2.2.auto_fix <;> simp [resolveStep, suggest_fix, fix_error, h]
  | generic raw => rfl

theorem foldl_resolveStep_self (env : Env) (l : List PipError)
    (acc : Bool × List Event × PipDependencyResolver) :
    (l.foldl (resolveStep env) acc).2.2 = acc.2.2 := by
  induction l generalizing acc with
  | nil => rfl
  | cons e t ih => rw [List.foldl_cons, ih, resolveStep_self]

theorem foldl_resolveStep_noauto (env : Env) (l : List PipError)
    (b : Bool) (evs : List Event) (s : PipDependencyResolver)
    (h : s.auto_fix = false) :
    l.foldl (resolveStep env) (b, evs, s)
      = (if l.isEmpty then b else false, evs, s) := by
  induction l generalizing b with
  | nil => rfl
  | cons e t ih =>
    have hstep : resolveStep env (b, evs, s) e = (false, evs, s) := by
      cases e with
      | dependency_conflict p pv d r cd cv raw => simp [resolveStep, suggest_fix, h]
      | generic raw => rfl
    rw [List.foldl_cons, hstep, ih]
    simp

theorem resolve_events_noauto (verbose : Bool) (env : Env) :
    ((resolve_dependencies ⟨false, verbose⟩ env).1).2 = [Event.runPipCheck] := by
  obtain ⟨⟨ok1, out1⟩, fr, c2⟩ := env
  cases ok1 with
  | true => rfl
  | false =>
    by_cases hE : ((out1.splitOn "\n").foldl parseStep []).isEmpty
    · simp [resolve_dependencies, run_pip_check, parse_pip_check_output, hE]
    · simp only [resolve_dependencies, run_pip_check, parse_pip_check_output,
        Bool.false_eq_true, if_false, hE, if_neg]
      rw [foldl_resolveStep_noauto _ _ _ _ _ rfl]
      simp [hE]

/-- C1: remediation is optional — when the resolver's `auto_fix` flag is
`False`, `resolve_dependencies` never invokes `fix_error`, whatever the
pip-check output and the environment; it only logs the suggested commands. -/
theorem resolve_dependencies_no_fix_when_auto_fix_off (verbose : Bool) (env : Env)
    (cmd : String) :
    Event.fixError cmd ∉ ((resolve_dependencies ⟨false, verbose⟩ env).1).2 := by
  rw [resolve_events_noauto]
  simp

/-- C4: when the consistency check succeeds (`pip check` exits with return
code 0), `resolve_dependencies` returns `True` immediately — the only
external action in the trace is the initial check itself, so no fix is
suggested or executed and the state is untouched. -/
theorem resolve_dependencies_success_spec (self : PipDependencyResolver)
    (output : String) (fixResult : String → Bool × String) (check2 : Bool × String) :
    resolve_dependencies self ⟨(true, output), fixResult, check2⟩
      = ((true, [Event.runPipCheck]), self) := rfl

/-- C10: when `run_pip_check` reports failure and `auto_fix` is `False`,
`resolve_dependencies` returns `False` — both with an empty parse and with
errors whose every path clears the all-fixed flag. -/
theorem resolve_dependencies_failure_noauto (verbose : Bool) (output : String)
    (fixResult : String → Bool × String) (check2 : Bool × String) :
    ((resolve_dependencies ⟨false, verbose⟩ ⟨(false, output), fixResult, check2⟩).1).1
      = false := by
  by_cases hE : ((output.splitOn "\n").foldl parseStep []).isEmpty
  · simp [resolve_dependencies, run_pip_check, parse_pip_check_output, hE]
  · simp only [resolve_dependencies, run_pip_check, parse_pip_check_output,
      Bool.false_eq_true, if_false, hE, if_neg]
    rw [foldl_resolveStep_noauto _ _ _ _ _ rfl]
    simp [hE]

theorem resolve_dependencies_self (self : PipDependencyResolver) (env : Env) :
    (resolve_dependencies self env).2 = self := by
  obtain ⟨⟨ok1, out1⟩, fr, c2⟩ := env
  cases ok1 with
  | true => rfl
  | false =>
    by_cases hE : ((out1.splitOn "\n").foldl parseStep []).isEmpty
    · simp [resolve_dependencies, run_pip_check, parse_pip_check_output, hE]
    · simp only [resolve_dependencies, run_pip_check, parse_pip_check_output,
        Bool.false_eq_true, if_false, hE, if_neg]
      rcases hF : ((out1.splitOn "\n").foldl parseStep []).foldl
          (resolveStep ⟨(false, out1), fr, c2⟩)
          (true, [Event.runPipCheck], self) with ⟨fb, fevs, fs⟩
      have hfs : fs = self := by
        have h := foldl_resolveStep_self ⟨(false, out1), fr, c2⟩
          ((out1.splitOn "\n").foldl parseStep []) (true, [Event.runPipCheck], self)
        rw [hF] at h
        exact h
      simp only [hfs]
      split <;> rfl

/-- C7: the resolver keeps no mutable state — every operation returns `self`
unchanged, and the constructor stores exactly the flags it is given, so
`auto_fix` and `verbose` always equal the construction values. -/
theorem resolver_state_immutable (self : PipDependencyResolver)
    (result : Bool × String) (output : String) (error : PipError) (env : Env)
    (cmd : String) (a v : Bool) :
    (run_pip_check self result).2 = self ∧
    (parse_pip_check_output self output).2 = self ∧
    (suggest_fix self error).2 = self ∧
    (fix_error self env cmd).2 = self ∧
    (resolve_dependencies self env).2 = self ∧
    (PipDependencyResolver.init a v).auto_fix = a ∧
    (PipDependencyResolver.init a v).verbose = v :=
  ⟨rfl, rfl, suggest_fix_self self error, rfl, resolve_dependencies_self self env,
    rfl, rfl⟩

end Check

namespace Check

theorem parseStep_not_blank (errs : List PipError) (line : String)
    (h : (pyStrip line).isEmpty = false) :
    parseStep errs line = errs ++ [parsedEntry line] := by
  cases hr : reqSearch line with
  | none => simp [parseStep, parsedEntry, h, hr]
  | some m =>
    obtain ⟨a, b, c, d, e, f⟩ := m
    simp [parseStep, parsedEntry, h, hr]

theorem parse_foldl (lines : List String) (acc : List PipError) :
    lines.foldl parseStep acc
      = acc ++ (lines.filter (fun l => !(pyStrip l).isEmpty)).map parsedEntry := by
  induction lines generalizing acc with
  | nil => simp
  | cons line t ih =>
    rw [List.foldl_cons, ih]
    by_cases h : (pyStrip line).isEmpty
    · simp [parseStep, h]
    · have h' : (pyStrip line).isEmpty = false := by simpa using h
      rw [parseStep_not_blank _ _ h']
      simp [h', List.filter_cons, List.append_assoc]

/-- C2: `parse_pip_check_output` returns exactly one entry per non-blank
line of the output, in line order — a `dependency_conflict` entry with the
six captured groups when the requirement regex matches the line (see
`parsedEntry`), a `generic` entry with the raw line otherwise; blank or
whitespace-only lines produce no entry. -/
theorem parse_pip_check_output_spec (self : PipDependencyResolver) (output : String) :
    (parse_pip_check_output self output).1
      = ((output.splitOn "\n").filter (fun line => !(pyStrip line).isEmpty)).map
          parsedEntry := by
  simpa [parse_pip_check_output] using parse_foldl (output.splitOn "\n") []

/-- C3: suggested fixes are pure string substitution — for a
`dependency_conflict` error the first line of the suggestion is
`pip install --upgrade ` followed by the dependency name and the verbatim
requirement specifier, and for a `generic` error `suggest_fix` returns
`None`.  (The newline-freeness hypotheses hold for every error produced by
the parser, whose captures never contain a newline.) -/
theorem suggest_fix_spec (self : PipDependencyResolver)
    (package package_version dependency requirement current_dependency
      current_version raw_message other_raw : String)
    (hdep : dependency.data.all (fun c => c != '\n') = true)
    (hreq : requirement.data.all (fun c => c != '\n') = true) :
    ((suggest_fix self (PipError.dependency_conflict package package_version
        dependency requirement current_dependency current_version raw_message)).1).map
          pyFirstLine
        = some ("pip install --upgrade " ++ dependency ++ requirement) ∧
      (suggest_fix self (PipError.generic other_raw)).1 = none := by
  refine ⟨?_, rfl⟩
  simp only [suggest_fix, Option.map_some']
  congr 1
  apply String.ext
  simp only [pyFirstLine, String.data_append, List.append_assoc]
  rw [takeWhile_append_of_all _ _ (by decide)]
  rw [takeWhile_append_of_all _ _ hdep]
  rw [takeWhile_append_of_all _ _ hreq]
  simp [List.takeWhile_cons]

end Check

/-- Witness for C3 at a concrete parsed error. -/
theorem suggest_fix_spec_witness :
    (("numpy".data.all (fun c => c != '\n')) = true ∧
      ("~=1.19.2".data.all (fun c => c != '\n')) = true) ∧
    (((Check.suggest_fix ⟨false, false⟩ (Check.PipError.dependency_conflict
          "tensorflow" "2.4.0" "numpy" "~=1.19.2" "numpy" "1.20.0" "raw")).1).map
        pyFirstLine
      = some ("pip install --upgrade " ++ "numpy" ++ "~=1.19.2") ∧
    (Check.suggest_fix ⟨false, false⟩ (Check.PipError.generic "other")).1 = none) :=
  ⟨⟨by decide, by decide⟩,
    Check.suggest_fix_spec ⟨false, false⟩ "tensorflow" "2.4.0" "numpy" "~=1.19.2"
      "numpy" "1.20.0" "raw" "other" (by decide) (by decide)⟩

namespace Main

/-- C6: `confirm_update` returns `True` exactly when `auto_yes` is set or
the prompt response is exactly `o` or `O`; every other response yields
`False`, and with `auto_yes` no prompt is issued at all. -/
theorem confirm_update_spec (pkg : String) (info : ConflictInfo)
    (auto_yes : Bool) (response : String) :
    ((confirm_update pkg info auto_yes response).1 = true ↔
      auto_yes = true ∨ response = "o" ∨ response = "O") ∧
    (confirm_update pkg info auto_yes response).2 = (if auto_yes then 0 else 1) := by
  cases auto_yes with
  | true => exact ⟨by simp [confirm_update], rfl⟩
  | false =>
    refine ⟨?_, rfl⟩
    simp only [confirm_update, Bool.false_eq_true, if_false, ite_self,
      Bool.or_eq_true, beq_iff_eq, false_or]
    rw [pyLower_eq_o, pyUpper_eq_O]
    tauto

/-- C8: for every installed version and every requirement string containing
none of `==`, `>=`, `<=`, `meets_version_requirement` returns `True`
regardless of the installed version and of the version oracle. -/
theorem meets_version_requirement_no_specifier
    (vcmp : String → String → Option Ordering) (installed_ver version_req : String)
    (h1 : pyContains version_req "==" = false)
    (h2 : pyContains version_req ">=" = false)
    (h3 : pyContains version_req "<=" = false) :
    meets_version_requirement vcmp installed_ver version_req = true := by
  simp [meets_version_requirement, h1, h2, h3]

/-- Witness for C8 at the concrete requirement string `~=1.4`. -/
theorem meets_version_requirement_no_specifier_witness :
    (pyContains "~=1.4" "==" = false ∧ pyContains "~=1.4" ">=" = false ∧
      pyContains "~=1.4" "<=" = false) ∧
    meets_version_requirement (fun _ _ => none) "1.0" "~=1.4" = true :=
  ⟨⟨by decide, by decide, by decide⟩,
    meets_version_requirement_no_specifier (fun _ _ => none) "1.0" "~=1.4"
      (by decide) (by decide) (by decide)⟩

theorem conflictStep_keys (vcmp : String → String → Option Ordering)
    (get_dependents : String → List (String × DependentInfo))
    (installed : List (String × String))
    (conflicts : List (String × ConflictInfo)) (item : String × ReqInfo)
    (x : String)
    (h : x ∈ (conflictStep vcmp get_dependents installed conflicts item).map Prod.fst) :
    x ∈ conflicts.map Prod.fst ∨ (x = item.1 ∧ item.1 ∈ installed.map Prod.fst) := by
  unfold conflictStep at h
  dsimp only at h
  cases hl : List.lookup item.1 installed with
  | none =>
    rw [hl] at h
    exact Or.inl h
  | some installed_ver =>
    have hmem := lookup_mem_keys _ _ _ hl
    rw [hl] at h
    dsimp only at h
    have hkey : ∀ info : ConflictInfo,
        x ∈ (dictInsert conflicts item.1 info).map Prod.fst →
        x ∈ conflicts.map Prod.fst ∨ (x = item.1 ∧ item.1 ∈ installed.map Prod.fst) := by
      intro info hx
      rcases dictInsert_keys _ _ _ _ hx with h' | h'
      · exact Or.inl h'
      · exact Or.inr ⟨h', hmem⟩
    split at h
    · split at h
      · exact hkey _ h
      · split at h
        · exact hkey _ h
        · exact Or.inl h
    · split at h
      · exact hkey _ h
      · exact Or.inl h

theorem conflict_foldl_keys (vcmp : String → String → Option Ordering)
    (get_dependents : String → List (String × DependentInfo))
    (installed : List (String × String)) (l : List (String × ReqInfo))
    (acc : List (String × ConflictInfo)) (x : String)
    (h : x ∈ (l.foldl (conflictStep vcmp get_dependents installed) acc).map Prod.fst) :
    x ∈ acc.map Prod.fst ∨ (x ∈ l.map Prod.fst ∧ x ∈ installed.map Prod.fst) := by
  induction l generalizing acc with
  | nil => exact Or.inl h
  | cons it t ih =>
    rw [List.foldl_cons] at h
    rcases ih _ h with h' | h'
    · rcases conflictStep_keys _ _ _ _ _ _ h' with h2 | ⟨h2, h3⟩
      · exact Or.inl h2
      · subst h2
        exact Or.inr ⟨by simp, h3⟩
    · exact Or.inr ⟨by simp [h'.1], h'.2⟩

/-- C9: every key of the conflicts dict returned by
`check_version_conflicts` is a key of both the requirements mapping and the
installed mapping — a required package that is not installed is never
flagged. -/
theorem check_version_conflicts_keys (vcmp : String → String → Option Ordering)
    (get_dependents : String → List (String × DependentInfo))
    (requirements : List (String × ReqInfo)) (installed : List (String × String))
    (pkg : String)
    (h : pkg ∈ (check_version_conflicts vcmp get_dependents requirements
        installed).map Prod.fst) :
    pkg ∈ requirements.map Prod.fst ∧ pkg ∈ installed.map Prod.fst := by
  rcases conflict_foldl_keys vcmp get_dependents installed requirements [] pkg h
    with h' | h'
  · simp at h'
  · exact h'

/-- Witness for C9 at a concrete conflicting requirement. -/
theorem check_version_conflicts_keys_witness :
    "a" ∈ (check_version_conflicts (fun _ _ => some Ordering.lt) (fun _ => [])
        [("a", ⟨"==2.0", some "2.0"⟩)] [("a", "1.0")]).map Prod.fst ∧
    ("a" ∈ ([("a", (⟨"==2.0", some "2.0"⟩ : ReqInfo))].map Prod.fst) ∧
      "a" ∈ ([("a", "1.0")].map Prod.fst)) :=
  ⟨by decide,
    check_version_conflicts_keys (fun _ _ => some Ordering.lt) (fun _ => [])
      [("a", ⟨"==2.0", some "2.0"⟩)] [("a", "1.0")] "a" (by decide)⟩

end Main

namespace Main

theorem is_present_foldl (importOk : String → Bool) (l : List String)
    (acc : List String) :
    l.foldl (fun installs package =>
      if importOk (module_name_of package) then installs
      else installs ++ [package]) acc
    = acc ++ l.filter (fun package => !importOk (module_name_of package)) := by
  induction l generalizing acc with
  | nil => simp
  | cons p t ih =>
    rw [List.foldl_cons]
    by_cases h : importOk (module_name_of p)
    · simp [h, ih, List.filter_cons]
    · simp [h, ih, List.filter_cons, List.append_assoc]

/-- C5 (amended): installs are attempted exactly for the arguments whose
module (the map lookup of the sequentially stripped name, defaulting to the
name itself) fails to import. -/
theorem is_present_installs_only_missing (argv : List String) (auto_yes : Bool)
    (importOk : String → Bool) :
    is_present argv auto_yes importOk
      = argv.filter (fun package => !importOk (module_name_of package)) := by
  have h := is_present_foldl importOk argv []
  exact h

/-- C5 counterexample: on `a>==b` the code strips to `a>` (successive splits
on `'=='`, `'>='`, `'<='`), not to `a` (the text before the first specifier,
which is the `'>='` at index 1); with a module `a>` importable and `a` not,
the code attempts no install while the claim's reading attempts one. -/
theorem is_present_first_specifier_counterexample :
    package_name_of "a>==b" = "a>" ∧ specStripName "a>==b" = "a" ∧
    is_present ["a>==b"] false (fun m => m == "a>") = [] ∧
    is_present_specStrip ["a>==b"] false (fun m => m == "a>") = ["a>==b"] :=
  ⟨by decide, by decide, by decide, by decide⟩

end Main

/-- Witness for C1 at a concrete environment. -/
theorem resolve_dependencies_no_fix_witness :
    Check.Event.fixError "pip install --upgrade x"
      ∉ ((Check.resolve_dependencies ⟨false, false⟩
          ⟨(false, ""), fun _ => (true, ""), (true, "")⟩).1).2 :=
  Check.resolve_dependencies_no_fix_when_auto_fix_off false
    ⟨(false, ""), fun _ => (true, ""), (true, "")⟩ "pip install --upgrade x"
